import Mathlib

/-!
Verification model of `Translator.py`: an English→Japanese translator that
POSTs a prompt to a text-generation endpoint, parses the JSON reply, and
maps every failure to a fixed user-facing message; plus the surrounding
read-eval-print loop.

The Python code is embedded shallowly: JSON values become an inductive
type, the dynamic operations the code performs on parsed JSON (`in`,
indexing, `len`, truthiness) become functions in `Except` that can raise
the corresponding Python exceptions, and the `try/except` ladder becomes
an explicit handler function applied to the raised exception.
-/

/-- A parsed JSON value, as produced by `response.json()` in Python. -/
inductive JValue where
  | null : JValue
  | bool (b : Bool) : JValue
  | num (n : Int) : JValue
  | str (s : String) : JValue
  | arr (xs : List JValue) : JValue
  | obj (kvs : List (String × JValue)) : JValue

/-- The Python exceptions that can arise inside the `try` block of
`translate_english_to_japanese`.  `requestExc` stands for
`requests.exceptions.RequestException` (raised by `requests.post` on a
transport failure and by `response.raise_for_status` on a 4xx/5xx
status).  `requestsJsonDecodeExc` is `requests.exceptions.JSONDecodeError`,
raised by `response.json()` on an unparseable body: since requests
2.27.0 this class subclasses BOTH `RequestException` (via
`InvalidJSONError`) and `json.JSONDecodeError`, so it is an instance of
both handler classes of lines 73 and 77.  The remaining constructors
are the dynamic-typing errors the chained dictionary/list accesses can
raise. -/
inductive PyExc where
  | requestExc : PyExc
  | requestsJsonDecodeExc : PyExc
  | typeError : PyExc
  | keyError : PyExc
  | indexError : PyExc
deriving DecidableEq

/-- Instance test for `requests.exceptions.RequestException` (the class
of the handler on line 73): transport/HTTP errors, and — since
requests 2.27.0 — also `requests.exceptions.JSONDecodeError`. -/
def isRequestException : PyExc → Bool
  | .requestExc => true
  | .requestsJsonDecodeExc => true
  | _ => false

/-- Instance test for `json.JSONDecodeError` (the class of the handler
on line 77): `requests.exceptions.JSONDecodeError` subclasses it. -/
def isJsonDecodeError : PyExc → Bool
  | .requestsJsonDecodeExc => true
  | _ => false

/-- Python truthiness of a parsed JSON value: `None`, `False`, `0`, `""`,
`[]`, `{}` are falsy, everything else truthy. -/
def truthy : JValue → Bool
  | .null => false
  | .bool b => b
  | .num n => n != 0
  | .str s => !s.isEmpty
  | .arr xs => !xs.isEmpty
  | .obj kvs => !kvs.isEmpty

/-- First-match lookup of a key in the field list of a JSON object
(Python dicts from JSON parsing have string keys). -/
def lookupKey (k : String) : List (String × JValue) → Option JValue
  | [] => none
  | kv :: rest => if kv.1 = k then some kv.2 else lookupKey k rest

/-- Whether `needle` is a contiguous substring of the character list. -/
def charsContain (needle : List Char) : List Char → Bool
  | [] => needle.isEmpty
  | c :: rest => needle.isPrefixOf (c :: rest) || charsContain needle rest

/-- Python `key in v` for a string `key`: key membership for a dict,
element equality for a list, substring test for a string, `TypeError`
for non-container values. -/
def pyContains (key : String) : JValue → Except PyExc Bool
  | .obj kvs => .ok (lookupKey key kvs).isSome
  | .arr xs => .ok (xs.any fun x => match x with | .str s => s = key | _ => false)
  | .str s => .ok (charsContain key.toList s.toList)
  | _ => .error .typeError

/-- Python `v[key]` for a string `key`: dict lookup (raising `KeyError`
when absent), `TypeError` for lists, strings and non-containers. -/
def pyIndexS (v : JValue) (key : String) : Except PyExc JValue :=
  match v with
  | .obj kvs =>
    match lookupKey key kvs with
    | some x => .ok x
    | none => .error .keyError
  | _ => .error .typeError

/-- Python `v[i]` for a natural index: list element (raising
`IndexError` when out of range), one-character string for a string, a
`KeyError` for a JSON-derived dict (whose keys are all strings), and a
`TypeError` otherwise. -/
def pyIndexN (v : JValue) (i : Nat) : Except PyExc JValue :=
  match v with
  | .arr xs =>
    match xs.get? i with
    | some x => .ok x
    | none => .error .indexError
  | .str s =>
    match s.toList.get? i with
    | some c => .ok (.str (String.mk [c]))
    | none => .error .indexError
  | .obj _ => .error .keyError
  | _ => .error .typeError

/-- Python `len(v)`: length of a list, dict or string, `TypeError`
otherwise. -/
def pyLen : JValue → Except PyExc Nat
  | .arr xs => .ok xs.length
  | .obj kvs => .ok kvs.length
  | .str s => .ok s.length
  | _ => .error .typeError

/-- The exact user-facing failure strings returned by
`translate_english_to_japanese`. -/
def networkErrMsg : String := "Translation failed due to network error."

def jsonErrMsg : String := "Translation failed: Invalid JSON response from API."

def structureErrMsg : String := "Translation failed: API response structure was unexpected."

def unexpectedErrMsg : String := "Translation failed due to an unexpected error."

/-- The chained existence check and extraction from lines 58–67 of
`Translator.py`, evaluated in Python's left-to-right short-circuit
order:
`response_json and "candidates" in response_json and
 len(response_json["candidates"]) > 0 and
 "content" in response_json["candidates"][0] and
 "parts" in response_json["candidates"][0]["content"] and
 len(...["parts"]) > 0 and "text" in ...["parts"][0]`,
returning `some` of `...["parts"][0]["text"]` when the whole condition
is true, `none` when it evaluates to false (the `else` branch), and the
raised exception when any step raises. -/
def getTranslation (rj : JValue) : Except PyExc (Option JValue) :=
  if truthy rj = false then .ok none else
  match pyContains "candidates" rj with
  | .error e => .error e
  | .ok false => .ok none
  | .ok true =>
    match pyIndexS rj "candidates" with
    | .error e => .error e
    | .ok cands =>
      match pyLen cands with
      | .error e => .error e
      | .ok n =>
        if n = 0 then .ok none else
        match pyIndexN cands 0 with
        | .error e => .error e
        | .ok cand0 =>
          match pyContains "content" cand0 with
          | .error e => .error e
          | .ok false => .ok none
          | .ok true =>
            match pyIndexS cand0 "content" with
            | .error e => .error e
            | .ok content =>
              match pyContains "parts" content with
              | .error e => .error e
              | .ok false => .ok none
              | .ok true =>
                match pyIndexS content "parts" with
                | .error e => .error e
                | .ok parts =>
                  match pyLen parts with
                  | .error e => .error e
                  | .ok m =>
                    if m = 0 then .ok none else
                    match pyIndexN parts 0 with
                    | .error e => .error e
                    | .ok part0 =>
                      match pyContains "text" part0 with
                      | .error e => .error e
                      | .ok false => .ok none
                      | .ok true =>
                        match pyIndexS part0 "text" with
                        | .error e => .error e
                        | .ok t => .ok (some t)

/-- The response body handed back by the (possibly mocked) endpoint:
either text that fails JSON parsing, or a parsed JSON value. -/
inductive Body where
  | invalidJson (raw : String) : Body
  | json (v : JValue) : Body

/-- Behaviour of the endpoint for one call: either the transport fails
(`requests.post` raises) or an HTTP response with a status code and a
body arrives. -/
inductive EndpointBehaviour where
  | transportError : EndpointBehaviour
  | reply (status : Nat) (body : Body) : EndpointBehaviour

/-- The body of the `try` block (lines 44–71): POST, `raise_for_status`
(which raises an `HTTPError`, a `RequestException`, exactly for status
codes in 400–599), JSON parsing, and the chained extraction.  An
`Except.error` is an exception escaping the `try` block; `Except.ok` is
the value returned from inside it (either the extracted text or the
unexpected-structure message from the `else` branch). -/
def translateTryBody : EndpointBehaviour → Except PyExc JValue
  | .transportError => .error .requestExc
  | .reply status (.invalidJson _) =>
    if 400 ≤ status ∧ status < 600 then .error .requestExc else
    .error .requestsJsonDecodeExc
  | .reply status (.json v) =>
    if 400 ≤ status ∧ status < 600 then .error .requestExc else
    match getTranslation v with
    | .error e => .error e
    | .ok (some t) => .ok t
    | .ok none => .ok (.str structureErrMsg)

/-- The `except` ladder of lines 73–85, applied to whatever exception
escapes the `try` block, trying the handler classes in source order:
`requests.exceptions.RequestException` first, then
`json.JSONDecodeError`, then the catch-all `Exception`.  Because
`requests.exceptions.JSONDecodeError` is a `RequestException`, the
first handler catches it and the `json.JSONDecodeError` handler is
unreachable. -/
def applyHandlers (e : PyExc) : String :=
  if isRequestException e then networkErrMsg
  else if isJsonDecodeError e then jsonErrMsg
  else unexpectedErrMsg

/-- The prompt text built by the f-string on line 31. -/
def promptPre : String := "Translate the following English text to Japanese (only provide the Japanese text):\n\n\""

def promptText (english_text : String) : String :=
  promptPre ++ english_text ++ "\""

/-- The request payload dict of lines 25–36. -/
def request_payload (english_text : String) : JValue :=
  .obj [("contents", .arr [
    .obj [("role", .str "user"),
          ("parts", .arr [.obj [("text", .str (promptText english_text))]])]])]

/-- The URL of line 20, with the credential interpolated as the `key`
query parameter. -/
def api_url (api_key : String) : String :=
  "https://generativelanguage.googleapis.com/v1beta/models/gemini-2.0-flash:generateContent?key=" ++ api_key

/-- The request headers dict of lines 39–42. -/
def requestHeaders : List (String × String) :=
  [("Content-Type", "application/json"), ("Accept", "application/json")]

/-- The outbound HTTP request assembled by `translate_english_to_japanese`
before any endpoint interaction. -/
structure OutboundRequest where
  method : String
  url : String
  headers : List (String × String)
  payload : JValue

def outboundRequest (english_text api_key : String) : OutboundRequest :=
  { method := "POST"
  , url := api_url api_key
  , headers := requestHeaders
  , payload := request_payload english_text }

/-- `translate_english_to_japanese` (lines 5–85): run the `try` body
against the endpoint's behaviour and convert any escaping exception to
its handler's message string.  The Python function's return value is a
Python object (normally a string), modelled as a `JValue`. -/
def translate_english_to_japanese (english_text api_key : String)
    (endpoint : EndpointBehaviour) : JValue :=
  match translateTryBody endpoint with
  | .ok v => v
  | .error e => .str (applyHandlers e)

/-- The four fixed failure strings, in the order of the code paths that
produce them (structure check, network handler, JSON handler,
catch-all handler). -/
def failureMessages : List String :=
  [structureErrMsg, networkErrMsg, jsonErrMsg, unexpectedErrMsg]

/-- Lowercase hexadecimal digit, as used by Python string escapes. -/
def hexDigit (n : Nat) : Char :=
  if n < 10 then Char.ofNat (48 + n) else Char.ofNat (87 + n)

/-- How Python `repr` renders one character of a string literal quoted
with `quote`: escape the backslash, the active quote character, and
newline/carriage-return/tab by name; control characters (ASCII and
Latin-1, including U+00A0) as `\xXX`; every other character as
itself. -/
def escapeChar (quote c : Char) : List Char :=
  if c = '\\' then ['\\', '\\']
  else if c = quote then ['\\', quote]
  else if c = '\n' then ['\\', 'n']
  else if c = '\r' then ['\\', 'r']
  else if c = '\t' then ['\\', 't']
  else if c.toNat < 0x20 || (0x7f ≤ c.toNat && c.toNat ≤ 0xa0) then
    ['\\', 'x', hexDigit (c.toNat / 16), hexDigit (c.toNat % 16)]
  else [c]

/-- Python `repr` of a string: single-quoted, except that a string
containing a single quote but no double quote is double-quoted; the
characters are escaped for the chosen quote. -/
def pyStrRepr (s : String) : String :=
  let cs := s.toList
  let quote := if cs.contains '\x27' && !(cs.contains '"') then '"' else '\x27'
  String.mk (quote :: (cs.map (escapeChar quote)).flatten ++ [quote])

mutual

/-- Python `repr` of a parsed JSON value (used by `str`/f-string
formatting for non-string values): `None`/`True`/`False`, decimal
integers, quoted-and-escaped strings, bracketed lists and braced
dicts. -/
def pyRepr : JValue → String
  | .null => "None"
  | .bool true => "True"
  | .bool false => "False"
  | .num n => toString n
  | .str s => pyStrRepr s
  | .arr xs => "[" ++ pyReprItems xs ++ "]"
  | .obj kvs => "\x7b" ++ pyReprFields kvs ++ "\x7d"

def pyReprItems : List JValue → String
  | [] => ""
  | [x] => pyRepr x
  | x :: y :: rest => pyRepr x ++ ", " ++ pyReprItems (y :: rest)

def pyReprFields : List (String × JValue) → String
  | [] => ""
  | [kv] => pyStrRepr kv.1 ++ ": " ++ pyRepr kv.2
  | kv :: kv2 :: rest => pyStrRepr kv.1 ++ ": " ++ pyRepr kv.2 ++ ", " ++ pyReprFields (kv2 :: rest)
end

/-- Python `str(v)` as used by the f-string `f"Japanese: {...}"`: a
string prints as itself, any other value as its `repr`. -/
def pyStr : JValue → String
  | .str s => s
  | .null => pyRepr .null
  | .bool b => pyRepr (.bool b)
  | .num n => pyRepr (.num n)
  | .arr xs => pyRepr (.arr xs)
  | .obj kvs => pyRepr (.obj kvs)

/-- Python `str.lower()`: lowercase each character (the inputs of
interest are ASCII, where this agrees with Unicode lowercasing). -/
def pyLower (s : String) : String := String.mk (s.toList.map Char.toLower)

/-- The characters removed by Python `str.strip()`: the Unicode
whitespace set of `str.isspace()` — tab through carriage return,
space, the file/group/record/unit separators U+001C–U+001F, NEL
U+0085, no-break space U+00A0, Ogham space U+1680, the U+2000–U+200A
spaces, line and paragraph separators U+2028/U+2029, U+202F, U+205F
and ideographic space U+3000. -/
def isPySpace (c : Char) : Bool :=
  (0x09 ≤ c.toNat && c.toNat ≤ 0x0d) || c.toNat = 0x20 ||
  (0x1c ≤ c.toNat && c.toNat ≤ 0x1f) || c.toNat = 0x85 || c.toNat = 0xa0 ||
  c.toNat = 0x1680 || (0x2000 ≤ c.toNat && c.toNat ≤ 0x200a) ||
  c.toNat = 0x2028 || c.toNat = 0x2029 || c.toNat = 0x202f ||
  c.toNat = 0x205f || c.toNat = 0x3000

/-- Python `str.strip()`: remove leading and trailing whitespace. -/
def pyStrip (s : String) : String :=
  String.mk (((s.toList.dropWhile isPySpace).reverse.dropWhile isPySpace).reverse)

/-- The retry prompt printed for blank input (line 111). -/
def retryMsg : String := "Please enter some text to translate."

/-- Outcome of one iteration of the `while True` loop (lines 102–116):
the loop either breaks out on the exit sentinel (no translator call),
skips a blank line after printing the retry prompt (no translator
call), or calls the translator and prints the labelled result. -/
inductive StepResult where
  | exited : StepResult
  | skipped (printed : String) : StepResult
  | translated (printed : String) : StepResult
deriving DecidableEq

/-- One iteration of the read loop on the line `english_input`, with
`endpoint` the endpoint's behaviour for the translator call this
iteration would make. -/
def replStep (english_input api_key : String) (endpoint : EndpointBehaviour) : StepResult :=
  if pyLower english_input = "exit" then .exited
  else if (pyStrip english_input).isEmpty then .skipped retryMsg
  else .translated ("Japanese: " ++ pyStr (translate_english_to_japanese english_input api_key endpoint))

/-- The whole read loop over a finite input script pairing each typed
line with the endpoint behaviour its translator call would see.
Returns the lines printed (retry prompts and labelled results) and
whether the loop terminated through the exit sentinel (`true`) rather
than by exhausting the script. -/
def replRun (api_key : String) : List (String × EndpointBehaviour) → List String × Bool
  | [] => ([], false)
  | (line, env) :: rest =>
    match replStep line api_key env with
    | .exited => ([], true)
    | .skipped m => ((m :: (replRun api_key rest).1), (replRun api_key rest).2)
    | .translated m => ((m :: (replRun api_key rest).1), (replRun api_key rest).2)

/-- The documented success shape
`{"candidates":[{"content":{"parts":[{"text": t}]}}]}`. -/
def successBody (t : String) : JValue :=
  .obj [("candidates", .arr [
    .obj [("content", .obj [("parts", .arr [.obj [("text", .str t)]])])]])]

/-- Bodies on which some link of the path
`candidates[0].content.parts[0].text` is missing while every container
that is traversed has the expected JSON type (top-level object,
`candidates` an array whose first element is an object, `content` an
object, `parts` an array whose first element is an object). -/
def missingLinkWellTyped (rj : JValue) : Bool :=
  match rj with
  | .obj kvs =>
    match lookupKey "candidates" kvs with
    | none => true
    | some (.arr []) => true
    | some (.arr (c0 :: _)) =>
      (match c0 with
      | .obj ckvs =>
        (match lookupKey "content" ckvs with
        | none => true
        | some (.obj contkvs) =>
          (match lookupKey "parts" contkvs with
          | none => true
          | some (.arr []) => true
          | some (.arr (p0 :: _)) =>
            (match p0 with
            | .obj pkvs => (lookupKey "text" pkvs).isNone
            | _ => false)
          | some _ => false)
        | some _ => false)
      | _ => false)
    | some _ => false
  | _ => false

theorem truthy_obj_of_lookup {k : String} {kvs : List (String × JValue)} {v : JValue}
    (h : lookupKey k kvs = some v) : truthy (.obj kvs) = true := by
  cases kvs with
  | nil => simp [lookupKey] at h
  | cons kv rest => simp [truthy]

/-- When a well-typed link of the extraction path is missing, the
chained check of lines 58–64 evaluates to `False` without raising. -/
theorem getTranslation_of_missingLink (rj : JValue)
    (hm : missingLinkWellTyped rj = true) :
    getTranslation rj = Except.ok none := by
  cases rj with
  | null => simp [missingLinkWellTyped] at hm
  | bool b => simp [missingLinkWellTyped] at hm
  | num n => simp [missingLinkWellTyped] at hm
  | str s => simp [missingLinkWellTyped] at hm
  | arr xs => simp [missingLinkWellTyped] at hm
  | obj kvs =>
    cases hlc : lookupKey "candidates" kvs with
    | none =>
      cases kvs with
      | nil => simp [getTranslation, truthy]
      | cons kv rest => simp [getTranslation, truthy, pyContains, hlc]
    | some v =>
      have hkvs : truthy (.obj kvs) = true := truthy_obj_of_lookup hlc
      cases v with
      | null => simp [missingLinkWellTyped, hlc] at hm
      | bool b => simp [missingLinkWellTyped, hlc] at hm
      | num n => simp [missingLinkWellTyped, hlc] at hm
      | str s => simp [missingLinkWellTyped, hlc] at hm
      | obj o => simp [missingLinkWellTyped, hlc] at hm
      | arr cs =>
        cases cs with
        | nil => simp [getTranslation, hkvs, pyContains, hlc, pyIndexS, pyLen]
        | cons c0 cs2 =>
          cases c0 with
          | null => simp [missingLinkWellTyped, hlc] at hm
          | bool b => simp [missingLinkWellTyped, hlc] at hm
          | num n => simp [missingLinkWellTyped, hlc] at hm
          | str s => simp [missingLinkWellTyped, hlc] at hm
          | arr a => simp [missingLinkWellTyped, hlc] at hm
          | obj ckvs =>
            cases hcc : lookupKey "content" ckvs with
            | none =>
              simp [getTranslation, hkvs, pyContains, hlc, hcc, pyIndexS, pyIndexN, pyLen,
                    List.get?]
            | some w =>
              cases w with
              | null => simp [missingLinkWellTyped, hlc, hcc] at hm
              | bool b => simp [missingLinkWellTyped, hlc, hcc] at hm
              | num n => simp [missingLinkWellTyped, hlc, hcc] at hm
              | str s => simp [missingLinkWellTyped, hlc, hcc] at hm
              | arr a => simp [missingLinkWellTyped, hlc, hcc] at hm
              | obj contkvs =>
                cases hcp : lookupKey "parts" contkvs with
                | none =>
                  simp [getTranslation, hkvs, pyContains, hlc, hcc, hcp, pyIndexS, pyIndexN,
                        pyLen, List.get?]
                | some u =>
                  cases u with
                  | null => simp [missingLinkWellTyped, hlc, hcc, hcp] at hm
                  | bool b => simp [missingLinkWellTyped, hlc, hcc, hcp] at hm
                  | num n => simp [missingLinkWellTyped, hlc, hcc, hcp] at hm
                  | str s => simp [missingLinkWellTyped, hlc, hcc, hcp] at hm
                  | obj o => simp [missingLinkWellTyped, hlc, hcc, hcp] at hm
                  | arr ps =>
                    cases ps with
                    | nil =>
                      simp [getTranslation, hkvs, pyContains, hlc, hcc, hcp, pyIndexS,
                            pyIndexN, pyLen, List.get?]
                    | cons p0 ps2 =>
                      cases p0 with
                      | null => simp [missingLinkWellTyped, hlc, hcc, hcp] at hm
                      | bool b => simp [missingLinkWellTyped, hlc, hcc, hcp] at hm
                      | num n => simp [missingLinkWellTyped, hlc, hcc, hcp] at hm
                      | str s => simp [missingLinkWellTyped, hlc, hcc, hcp] at hm
                      | arr a => simp [missingLinkWellTyped, hlc, hcc, hcp] at hm
                      | obj pkvs =>
                        have ht : lookupKey "text" pkvs = none := by
                          have := hm
                          simp [missingLinkWellTyped, hlc, hcc, hcp,
                                Option.isNone_iff_eq_none] at this
                          exact this
                        simp [getTranslation, hkvs, pyContains, hlc, hcc, hcp, ht,
                              pyIndexS, pyIndexN, pyLen, List.get?]

/-- C1: for every non-empty `sourceText` and non-empty `credential`, if
the endpoint responds with a success (2xx) HTTP status and a body of
the shape `{"candidates":[{"content":{"parts":[{"text": t}]}}]}`, then
`translate_english_to_japanese` returns exactly the string `t`,
unmodified. -/
theorem C1_success_returns_text_unmodified
    (sourceText credential t : String) (status : Nat)
    (hs : sourceText ≠ "") (hc : credential ≠ "")
    (h2 : 200 ≤ status) (h3 : status < 300) :
    translate_english_to_japanese sourceText credential
      (.reply status (.json (successBody t))) = .str t := by
  have hst : ¬(400 ≤ status ∧ status < 600) := by omega
  simp only [translate_english_to_japanese, translateTryBody]
  rw [if_neg hst]
  rfl

theorem C1_witness :
    "Hello" ≠ "" ∧ "k" ≠ "" ∧ 200 ≤ 200 ∧ 200 < 300 ∧
    translate_english_to_japanese "Hello" "k"
      (.reply 200 (.json (successBody "こんにちは"))) = .str "こんにちは" :=
  ⟨by decide, by decide, by decide, by decide,
   C1_success_returns_text_unmodified "Hello" "k" "こんにちは" 200
     (by decide) (by decide) (by decide) (by decide)⟩

/-- C2: on a success status with an unparseable body, `response.json()`
raises `requests.exceptions.JSONDecodeError`, which is a
`RequestException`, so the first handler (line 73) catches it and the
function returns the network-failure message — not the JSON-failure
message of the dedicated but unreachable `json.JSONDecodeError`
handler (lines 77–81) that the claim describes. -/
theorem C2_invalid_json_returns_network_message :
    translate_english_to_japanese "Hello" "k"
      (.reply 200 (.invalidJson "not json")) = .str networkErrMsg ∧
    isJsonDecodeError PyExc.requestsJsonDecodeExc = true ∧
    networkErrMsg ≠ jsonErrMsg :=
  ⟨rfl, rfl, by decide⟩

/-- C3 counterexample: the body `5` is valid JSON in which `candidates`
is absent, yet the function returns the generic unexpected-error
message (the chained check raises a `TypeError`, caught by the
catch-all handler), not the unexpected-structure message the claim
requires. -/
theorem C3_counterexample :
    translate_english_to_japanese "Hello" "key"
      (.reply 200 (.json (.num 5))) = .str unexpectedErrMsg ∧
    translate_english_to_japanese "Hello" "key"
      (.reply 200 (.json (.num 5))) ≠ .str structureErrMsg := by
  refine ⟨rfl, ?_⟩
  intro h
  rw [show translate_english_to_japanese "Hello" "key"
        (.reply 200 (.json (.num 5))) = .str unexpectedErrMsg from rfl] at h
  injection h with h2
  exact absurd h2 (by decide)

/-- C3 (amended): for every response body that parses as JSON in which
some link of the path `candidates[0].content.parts[0].text` is missing
while every traversed container has the expected JSON type, the
function returns the unexpected-structure message (and does not
crash). -/
theorem C3_missing_link_gives_structure_message
    (sourceText credential : String) (rj : JValue) (status : Nat)
    (h2 : 200 ≤ status) (h3 : status < 300)
    (hm : missingLinkWellTyped rj = true) :
    translate_english_to_japanese sourceText credential
      (.reply status (.json rj)) = .str structureErrMsg := by
  have hst : ¬(400 ≤ status ∧ status < 600) := by omega
  simp only [translate_english_to_japanese, translateTryBody]
  rw [if_neg hst, getTranslation_of_missingLink rj hm]

theorem C3_witness :
    missingLinkWellTyped (.obj [("foo", .str "bar")]) = true ∧
    translate_english_to_japanese "Hello" "k"
      (.reply 200 (.json (.obj [("foo", .str "bar")]))) = .str structureErrMsg :=
  ⟨rfl, C3_missing_link_gives_structure_message "Hello" "k"
    (.obj [("foo", .str "bar")]) 200 (by decide) (by decide) rfl⟩

/-- C4 counterexample: HTTP 304 is a non-2xx status, yet
`raise_for_status` does not raise for it, so the function parses the
body and returns the translation rather than the network-failure
message. -/
theorem C4_counterexample :
    translate_english_to_japanese "Hello" "key"
      (.reply 304 (.json (successBody "こんにちは"))) = .str "こんにちは" ∧
    translate_english_to_japanese "Hello" "key"
      (.reply 304 (.json (successBody "こんにちは"))) ≠ .str networkErrMsg := by
  refine ⟨rfl, ?_⟩
  intro h
  rw [show translate_english_to_japanese "Hello" "key"
        (.reply 304 (.json (successBody "こんにちは"))) = .str "こんにちは" from rfl] at h
  injection h with h2
  exact absurd h2 (by decide)

/-- C4 (amended): for every status in 400–599 — the statuses for which
`raise_for_status` raises — the function returns the network-failure
message whatever the body is (in particular the body is never parsed:
the result does not depend on it), and never raises. -/
theorem C4_http_error_gives_network_message
    (sourceText credential : String) (status : Nat) (body : Body)
    (h4 : 400 ≤ status) (h6 : status < 600) :
    translate_english_to_japanese sourceText credential
      (.reply status body) = .str networkErrMsg := by
  cases body with
  | invalidJson raw =>
    simp only [translate_english_to_japanese, translateTryBody]
    rw [if_pos ⟨h4, h6⟩]
    rfl
  | json v =>
    simp only [translate_english_to_japanese, translateTryBody]
    rw [if_pos ⟨h4, h6⟩]
    rfl

theorem C4_witness :
    translate_english_to_japanese "Hello" "k"
      (.reply 500 (.invalidJson "Internal Server Error")) = .str networkErrMsg :=
  C4_http_error_gives_network_message "Hello" "k" 500
    (.invalidJson "Internal Server Error") (by decide) (by decide)

/-- C5: for every `sourceText`, the outbound request is a POST to the
configured endpoint with the credential as the `key` URL query
parameter, JSON content-type and accept headers, and the payload
`{"contents":[{"role":"user","parts":[{"text": p}]}]}` where `p` is the
fixed instruction template with the literal `sourceText` embedded
verbatim. -/
theorem C5_outbound_request_shape (sourceText credential : String) :
    outboundRequest sourceText credential =
      { method := "POST"
      , url := "https://generativelanguage.googleapis.com/v1beta/models/gemini-2.0-flash:generateContent"
          ++ "?key=" ++ credential
      , headers := [("Content-Type", "application/json"), ("Accept", "application/json")]
      , payload := .obj [("contents", .arr [.obj [("role", .str "user"),
          ("parts", .arr [.obj [("text", .str
            ("Translate the following English text to Japanese (only provide the Japanese text):\n\n\""
              ++ sourceText ++ "\""))]])]])] } ∧
    ∃ pre post, promptText sourceText = pre ++ sourceText ++ post :=
  ⟨rfl, promptPre, "\"", rfl⟩

/-- C6: every endpoint behaviour yields a returned value — either the
try-block's own result or the message produced by the matching
exception handler — so no exception propagates to the REPL shell; and
the read loop terminates through `break` exactly when some input line
lowercases to the exit sentinel (translation failures never end it). -/
theorem C6_failures_handled_and_loop_exits_only_on_exit :
    (∀ (t k : String) (env : EndpointBehaviour),
      (∃ v, translateTryBody env = Except.ok v ∧
        translate_english_to_japanese t k env = v) ∨
      (∃ e, translateTryBody env = Except.error e ∧
        translate_english_to_japanese t k env = .str (applyHandlers e))) ∧
    (∀ (k : String) (inputs : List (String × EndpointBehaviour)),
      (replRun k inputs).2 = true ↔ ∃ p ∈ inputs, pyLower p.1 = "exit") := by
  constructor
  · intro t k env
    cases h : translateTryBody env with
    | ok v =>
      refine Or.inl ⟨v, rfl, ?_⟩
      simp only [translate_english_to_japanese, h]
    | error e =>
      refine Or.inr ⟨e, rfl, ?_⟩
      simp only [translate_english_to_japanese, h]
  · intro k inputs
    induction inputs with
    | nil => simp [replRun]
    | cons p rest ih =>
      obtain ⟨line, env⟩ := p
      by_cases hx : pyLower line = "exit"
      · have h1 : replStep line k env = StepResult.exited := by
          simp only [replStep]; rw [if_pos hx]
        have h2 : replRun k ((line, env) :: rest) = ([], true) := by
          simp only [replRun, h1]
        rw [h2]
        constructor
        · intro _
          exact ⟨(line, env), List.mem_cons_self _ _, hx⟩
        · intro _
          rfl
      · have hflag : (replRun k ((line, env) :: rest)).2 = (replRun k rest).2 := by
          by_cases hb : (pyStrip line).isEmpty = true
          · have h1 : replStep line k env = StepResult.skipped retryMsg := by
              simp only [replStep]; rw [if_neg hx, if_pos hb]
            simp only [replRun, h1]
          · have h1 : replStep line k env = StepResult.translated
                ("Japanese: " ++ pyStr (translate_english_to_japanese line k env)) := by
              simp only [replStep]; rw [if_neg hx, if_neg hb]
            simp only [replRun, h1]
        rw [hflag, ih]
        constructor
        · rintro ⟨p, hp, hpe⟩
          exact ⟨p, List.mem_cons_of_mem _ hp, hpe⟩
        · rintro ⟨p, hp, hpe⟩
          rcases List.mem_cons.mp hp with h | h
          · rw [h] at hpe
            exact absurd hpe hx
          · exact ⟨p, h, hpe⟩

theorem C6_witness :
    translate_english_to_japanese "Hello" "k" EndpointBehaviour.transportError =
      .str (applyHandlers PyExc.requestExc) ∧
    (replRun "k" [("Hello", EndpointBehaviour.transportError),
                  ("EXIT", EndpointBehaviour.transportError)]).2 = true := by
  constructor
  · rcases C6_failures_handled_and_loop_exits_only_on_exit.1 "Hello" "k"
        .transportError with ⟨v, hv, hr⟩ | ⟨e, he, hr⟩
    · simp [translateTryBody] at hv
    · simp only [translateTryBody, Except.error.injEq] at he
      rw [← he] at hr
      exact hr
  · exact (C6_failures_handled_and_loop_exits_only_on_exit.2 "k" _).mpr
      ⟨("EXIT", .transportError), by simp, by decide⟩

/-- C7: every input line whose lowercase form is the exit sentinel
makes the loop break without invoking the translator: the step is
`exited` and the run ends immediately with the exit flag set. -/
theorem C7_exit_sentinel_terminates
    (line api_key : String) (env : EndpointBehaviour)
    (rest : List (String × EndpointBehaviour))
    (hx : pyLower line = "exit") :
    replStep line api_key env = StepResult.exited ∧
    replRun api_key ((line, env) :: rest) = ([], true) := by
  have h1 : replStep line api_key env = StepResult.exited := by
    simp only [replStep]; rw [if_pos hx]
  exact ⟨h1, by simp only [replRun, h1]⟩

theorem C7_witness :
    pyLower "Exit" = "exit" ∧
    replRun "k" [("Exit", EndpointBehaviour.transportError),
                 ("ignored", EndpointBehaviour.transportError)] = ([], true) :=
  ⟨by decide, (C7_exit_sentinel_terminates "Exit" "k" .transportError
      [("ignored", .transportError)] (by decide)).2⟩

/-- C8: a non-sentinel line that strips to empty is skipped with the
retry prompt and no translator call; every other non-sentinel line is
translated and printed with the fixed "Japanese: " label. -/
theorem C8_blank_skipped_nonblank_translated
    (line api_key : String) (env : EndpointBehaviour)
    (hx : ¬ pyLower line = "exit") :
    ((pyStrip line).isEmpty = true →
      replStep line api_key env = StepResult.skipped retryMsg) ∧
    ((pyStrip line).isEmpty = false →
      replStep line api_key env = StepResult.translated
        ("Japanese: " ++ pyStr (translate_english_to_japanese line api_key env))) := by
  constructor
  · intro hb
    simp only [replStep]; rw [if_neg hx, if_pos hb]
  · intro hb
    simp only [replStep]; rw [if_neg hx, if_neg (by simp [hb])]

theorem C8_witness :
    replStep "   " "k" EndpointBehaviour.transportError = StepResult.skipped retryMsg ∧
    replStep "\u00A0" "k" EndpointBehaviour.transportError = StepResult.skipped retryMsg ∧
    replStep "Hello" "k" (.reply 200 (.json (successBody "こんにちは"))) =
      StepResult.translated "Japanese: こんにちは" := by
  refine ⟨?_, ?_, ?_⟩
  · exact (C8_blank_skipped_nonblank_translated "   " "k" .transportError
      (by decide)).1 (by decide)
  · exact (C8_blank_skipped_nonblank_translated "\u00A0" "k" .transportError
      (by decide)).1 (by decide)
  · have h := (C8_blank_skipped_nonblank_translated "Hello" "k"
      (.reply 200 (.json (successBody "こんにちは"))) (by decide)).2 (by decide)
    rw [h]
    rfl

/-- C10: the exit-sentinel comparison happens on the raw line before
any trimming: a line that is not the sentinel itself but strips to
"exit" does not end the loop and is passed unchanged to the
translator. -/
theorem C10_sentinel_checked_before_strip
    (line api_key : String) (env : EndpointBehaviour)
    (hx : ¬ pyLower line = "exit") (hs : pyStrip line = "exit") :
    replStep line api_key env ≠ StepResult.exited ∧
    replStep line api_key env = StepResult.translated
      ("Japanese: " ++ pyStr (translate_english_to_japanese line api_key env)) := by
  have hb : ¬((pyStrip line).isEmpty = true) := by rw [hs]; decide
  have h1 : replStep line api_key env = StepResult.translated
      ("Japanese: " ++ pyStr (translate_english_to_japanese line api_key env)) := by
    simp only [replStep]; rw [if_neg hx, if_neg hb]
  refine ⟨?_, h1⟩
  rw [h1]
  intro h
  exact StepResult.noConfusion h

theorem C10_witness :
    ¬ pyLower " exit " = "exit" ∧ pyStrip " exit " = "exit" ∧
    replStep " exit " "k" EndpointBehaviour.transportError =
      StepResult.translated ("Japanese: " ++ networkErrMsg) := by
  refine ⟨by decide, by decide, ?_⟩
  have h := (C10_sentinel_checked_before_strip " exit " "k" .transportError
    (by decide) (by decide)).2
  rw [h]
  rfl

/-- C9: each of the four failure strings begins with "Translation
failed"; every result of the function is either one of those four
strings or a value successfully extracted from a parsed response body;
and a well-formed success body whose `text` equals the network-failure
string makes the function return exactly that failure string, so the
caller cannot tell it from an error. -/
theorem C9_failure_strings_closed_and_ambiguous :
    (∀ m ∈ failureMessages,
      List.isPrefixOf "Translation failed".toList m.toList = true) ∧
    (∀ (t k : String) (env : EndpointBehaviour),
      (∃ m ∈ failureMessages, translate_english_to_japanese t k env = .str m) ∨
      (∃ status rj, env = .reply status (.json rj) ∧
        getTranslation rj = .ok (some (translate_english_to_japanese t k env)))) ∧
    (getTranslation (successBody networkErrMsg) = .ok (some (.str networkErrMsg)) ∧
      translate_english_to_japanese "Hello" "k"
        (.reply 200 (.json (successBody networkErrMsg))) = .str networkErrMsg) := by
  refine ⟨by decide, ?_, ⟨rfl, rfl⟩⟩
  intro t k env
  match env with
  | .transportError =>
    exact Or.inl ⟨networkErrMsg, by simp [failureMessages], rfl⟩
  | .reply status body =>
    by_cases hst : 400 ≤ status ∧ status < 600
    · refine Or.inl ⟨networkErrMsg, by simp [failureMessages], ?_⟩
      cases body with
      | invalidJson raw =>
        simp only [translate_english_to_japanese, translateTryBody]
        rw [if_pos hst]
        rfl
      | json v =>
        simp only [translate_english_to_japanese, translateTryBody]
        rw [if_pos hst]
        rfl
    · cases body with
      | invalidJson raw =>
        refine Or.inl ⟨networkErrMsg, by simp [failureMessages], ?_⟩
        simp only [translate_english_to_japanese, translateTryBody]
        rw [if_neg hst]
        rfl
      | json rj =>
        cases hg : getTranslation rj with
        | error e =>
          refine Or.inl ⟨applyHandlers e, ?_, ?_⟩
          · cases e <;>
              simp [failureMessages, applyHandlers, isRequestException, isJsonDecodeError]
          · simp only [translate_english_to_japanese, translateTryBody]
            rw [if_neg hst, hg]
        | ok o =>
          cases o with
          | none =>
            refine Or.inl ⟨structureErrMsg, by simp [failureMessages], ?_⟩
            simp only [translate_english_to_japanese, translateTryBody]
            rw [if_neg hst, hg]
          | some v =>
            refine Or.inr ⟨status, rj, rfl, ?_⟩
            have hv : translate_english_to_japanese t k (.reply status (.json rj)) = v := by
              simp only [translate_english_to_japanese, translateTryBody]
              rw [if_neg hst, hg]
            rw [hv, hg]

theorem C9_witness :
    List.isPrefixOf "Translation failed".toList networkErrMsg.toList = true :=
  C9_failure_strings_closed_and_ambiguous.1 networkErrMsg (by simp [failureMessages])
